import Mathlib

/-!
Shallow embedding of the IndexTTS serving gateway (`api.py`, `config_api.py`).

Modelling conventions:
* Wall-clock durations and timestamps are abstract integers/naturals supplied
  as parameters (`elapsed`, `now`, `itemTime`); the code only threads them
  through, so their numeric type is irrelevant to the verified properties.
* The synthesis engine (`IndexTTS.infer` / `infer_fast`) is an external
  collaborator, modelled as an oracle `TTSReq → Except String Unit` (raise a
  message or succeed).  The purely pass-through generation parameters
  (`top_p`, `temperature`, ...) are floats the gateway never inspects, so the
  request record keeps only the fields the gateway itself reads.
* `uuid.uuid4()` results are supplied as parameters (`uuid`).
* The filesystem is explicit: a list of existing path strings for
  `os.path.exists` checks, a list of `(path, bytes)` pairs for the uploads
  directory, a list of `FsFile` records (directory, name, ctime) for the
  cleanup scan, and a list of `(normalizedPath, bytes)` pairs for the outputs
  directory used by download/delete.  OS path resolution of `..` segments is
  modelled by `normalizeSegs`.
* `raise HTTPException` inside a `try` block is caught by the handler's
  `except Exception` clause (Starlette's `HTTPException` subclasses
  `Exception`, and `str(e)` is `f"status: detail"`), so those handlers
  re-raise status 500 with the original message embedded; the embedding
  reproduces that wrapping literally.
-/

namespace IndexTTSApi

/-- A synthesis request, keeping the fields of `TTSRequest` that the gateway
itself reads (`text`, `audio_prompt_path`, `output_path`).  The sampling
parameters are opaque pass-throughs consumed only by the engine oracle. -/
structure TTSReq where
  text : String
  audio_prompt_path : Option String := none
  output_path : Option String := none
  deriving DecidableEq

/-- The engine oracle: one `tts.infer` (or `infer_fast`) call either succeeds
or raises with a message. -/
abbrev Engine := TTSReq → Except String Unit

/-- One entry of the `results` list built by `batch_text_to_speech`.  Mirrors
the Python dict: keys that a branch does not set are `none`. -/
structure BatchEntry where
  index : Nat
  success : Bool
  output_path : Option String := none
  inference_time : Option Nat := none
  text_length : Option Nat := none
  error : Option String := none
  deriving DecidableEq

/-- Response payloads of the endpoints (only the fields the claims mention). -/
inductive Payload where
  | tts (output_path : String) (inference_time : Nat) (text_length : Nat)
  | upload (file_path : String) (filename : String) (file_size : Nat)
  | batch (total_requests : Nat) (results : List BatchEntry)
  | deleted (message : String)
  | cleaned (files : List String)
  | file (path : List String) (content : List Nat)
  deriving DecidableEq

/-- Outcome of a request: a JSON success body or an `HTTPException`
(status code, detail). -/
inductive Outcome where
  | ok (payload : Payload)
  | err (status : Nat) (detail : String)
  deriving DecidableEq

/-- The HTTP status a client observes (200 for a success body). -/
def Outcome.statusOf : Outcome → Nat
  | .ok _ => 200
  | .err s _ => s

/-- Whether the outcome is a success body. -/
def Outcome.isOk : Outcome → Bool
  | .ok _ => true
  | .err _ _ => false

/-- The module-level `stats` dict of `api.py` (minus `start_time`, which no
claim touches). -/
structure Stats where
  total_requests : Nat
  successful_requests : Nat
  failed_requests : Nat
  response_times : List Nat
  deriving DecidableEq

/-- The freshly initialised `stats` dict. -/
def initStats : Stats := ⟨0, 0, 0, []⟩

/-- `update_stats` of `api.py`: bump the counters, append the response time
and keep only the most recent 1000 samples (`lst[-1000:]`). -/
def update_stats (success : Bool) (response_time : Nat) (s : Stats) : Stats :=
  let s1 : Stats :=
    { s with total_requests := s.total_requests + 1 }
  let s2 : Stats :=
    if success then { s1 with successful_requests := s1.successful_requests + 1 }
    else { s1 with failed_requests := s1.failed_requests + 1 }
  let rts := s2.response_times ++ [response_time]
  { s2 with response_times :=
      if rts.length > 1000 then rts.drop (rts.length - 1000) else rts }

/-- Fold a sequence of `(success, elapsed)` recordings through
`update_stats`. -/
def recordAll (ops : List (Bool × Nat)) (s : Stats) : Stats :=
  ops.foldl (fun st op => update_stats op.1 op.2 st) s

/-- Python truthiness of an optional string: `None` and `""` are falsy. -/
def blankPath : Option String → Bool
  | none => true
  | some p => p.isEmpty

/-- `request.output_path = request.output_path or generated`: the handlers
replace a falsy `output_path` by a freshly generated one. -/
def resolvedPath (req_path : Option String) (generated : String) : String :=
  if blankPath req_path then generated else req_path.getD ""

/-- The relevant configuration values of `config_api.get_config()`. -/
structure Config where
  maxFileSize : Nat
  allowedAudioFormats : List String
  autoCleanup : Bool
  maxFileAge : Int
  deriving DecidableEq

/-- Defaults from `config_api.py` (`MAX_FILE_SIZE = 50MB`,
`ALLOWED_AUDIO_FORMATS`, `AUTO_CLEANUP = false`, `MAX_FILE_AGE = 86400`). -/
def defaultConfig : Config :=
  { maxFileSize := 50 * 1024 * 1024
    allowedAudioFormats := [".wav", ".mp3", ".flac", ".m4a"]
    autoCleanup := false
    maxFileAge := 86400 }

/-- `POST /tts` (`text_to_speech`).  `tts?` is the `tts_instance` global seen
by the `Depends(get_tts_instance)` dependency: when it is `none` the
dependency raises 503 before the handler body runs, so the stats are left
untouched.  `fs` is the set of paths for which `os.path.exists` is true,
`uuid` the generated output name, `elapsed` the measured duration. -/
def text_to_speech (tts? : Option Engine) (request : TTSReq) (fs : List String)
    (uuid : String) (elapsed : Nat) (s : Stats) : Outcome × Stats :=
  match tts? with
  | none => (.err 503 "TTS模型未初始化，请稍后重试", s)
  | some tts =>
      let outPath := resolvedPath request.output_path ("outputs/" ++ uuid ++ ".wav")
      if blankPath request.audio_prompt_path
          || !(fs.contains (request.audio_prompt_path.getD "")) then
        (.err 500 "TTS推理失败: 400: 参考音频文件不存在", update_stats false elapsed s)
      else
        match tts { request with output_path := some outPath } with
        | .ok _ =>
            (.ok (.tts outPath elapsed request.text.length),
             update_stats true elapsed s)
        | .error e =>
            (.err 500 ("TTS推理失败: " ++ e), update_stats false elapsed s)

/-- `POST /tts_fast` (`text_to_speech_fast`): identical control flow to
`text_to_speech`, routed to `tts.infer_fast` (a separate oracle) with its own
error prefix. -/
def text_to_speech_fast (tts? : Option Engine) (request : TTSReq) (fs : List String)
    (uuid : String) (elapsed : Nat) (s : Stats) : Outcome × Stats :=
  match tts? with
  | none => (.err 503 "TTS模型未初始化，请稍后重试", s)
  | some tts =>
      let outPath := resolvedPath request.output_path ("outputs/" ++ uuid ++ ".wav")
      if blankPath request.audio_prompt_path
          || !(fs.contains (request.audio_prompt_path.getD "")) then
        (.err 500 "快速TTS推理失败: 400: 参考音频文件不存在", update_stats false elapsed s)
      else
        match tts { request with output_path := some outPath } with
        | .ok _ =>
            (.ok (.tts outPath elapsed request.text.length),
             update_stats true elapsed s)
        | .error e =>
            (.err 500 ("快速TTS推理失败: " ++ e), update_stats false elapsed s)

/-- One iteration of the `for i, tts_request in enumerate(request.requests)`
loop of `batch_text_to_speech`: missing reference audio or an engine exception
appends a failure dict (no `inference_time` key); success appends the full
dict.  `engine i` is the oracle for the call made on item `i`, `itemTime i`
its measured duration. -/
def batchItem (engine : Nat → Engine) (fs : List String) (uuid : String)
    (itemTime : Nat → Nat) (i : Nat) (r : TTSReq) : BatchEntry :=
  let outPath := resolvedPath r.output_path
      ("outputs/batch_" ++ uuid ++ "_" ++ toString i ++ ".wav")
  if blankPath r.audio_prompt_path || !(fs.contains (r.audio_prompt_path.getD "")) then
    { index := i, success := false, error := some "参考音频文件不存在" }
  else
    match engine i { r with output_path := some outPath } with
    | .ok _ =>
        { index := i, success := true, output_path := some outPath,
          inference_time := some (itemTime i), text_length := some r.text.length }
    | .error e =>
        { index := i, success := false, error := some e }

/-- The batch loop itself, carrying the running index `i`. -/
def batchLoop (engine : Nat → Engine) (fs : List String) (uuid : String)
    (itemTime : Nat → Nat) : Nat → List TTSReq → List BatchEntry
  | _, [] => []
  | i, r :: rs =>
      batchItem engine fs uuid itemTime i r ::
        batchLoop engine fs uuid itemTime (i + 1) rs

/-- `POST /batch_tts` (`batch_text_to_speech`).  Per-item failures are
recorded inline and the loop continues; the top level records a single
successful stats entry. -/
def batch_text_to_speech (tts? : Option (Nat → Engine)) (reqs : List TTSReq)
    (fs : List String) (uuid : String) (itemTime : Nat → Nat) (elapsed : Nat)
    (s : Stats) : Outcome × Stats :=
  match tts? with
  | none => (.err 503 "TTS模型未初始化，请稍后重试", s)
  | some engine =>
      let results := batchLoop engine fs uuid itemTime 0 reqs
      (.ok (.batch reqs.length results), update_stats true elapsed s)

/-- An incoming multipart upload: the declared filename, the optional
declared `file.size` attribute (which FastAPI may leave as `None`), and the
bytes returned by `await file.read()`. -/
structure Upload where
  filename : String
  size : Option Nat := none
  content : List Nat := []
  deriving DecidableEq

/-- Split a character list on a separator, `str.split` style: the result is
never empty and separators delimit (possibly empty) fields. -/
def splitOnChar (c : Char) : List Char → List (List Char)
  | [] => [[]]
  | x :: xs =>
      match splitOnChar c xs with
      | [] => [[]]
      | h :: t => if x = c then [] :: h :: t else (x :: h) :: t

/-- Split a path string on `/`. -/
def splitSlash (s : String) : List String :=
  (splitOnChar '/' s.toList).map String.mk

/-- ASCII lowercasing of an extension (`.lower()`). -/
def lowerStr (s : String) : String :=
  String.mk (s.toList.map Char.toLower)

/-- Comma-and-space join (`", ".join(...)`). -/
def joinComma : List String → String
  | [] => ""
  | [x] => x
  | x :: xs => x ++ ", " ++ joinComma xs

/-- Whether `s` ends with `suff` (used for the `*.wav` glob). -/
def endsWithStr (s suff : String) : Bool :=
  suff.toList.isSuffixOf s.toList

/-- `pathlib.PurePath(...).name`: the component after the last slash. -/
def pathName (filename : String) : String :=
  (splitSlash filename).getLastD ""

/-- `pathlib.PurePath(...).suffix`: the extension from the last dot of the
name, empty unless that dot is strictly inside the name
(`0 < i < len(name) - 1`). -/
def pathSuffix (filename : String) : String :=
  let cs := (pathName filename).toList
  match cs.reverse.findIdx? (fun c => c == '.') with
  | none => ""
  | some j =>
      let i := cs.length - 1 - j
      if 0 < i ∧ i < cs.length - 1 then String.mk (cs.drop i) else ""

/-- The uploads directory: stored files as `(path, bytes)` pairs. -/
abbrev UploadDir := List (String × List Nat)

/-- `POST /upload_audio` (`upload_audio`).  The extension allow-list check
and the declared-size check (`if file.size and file.size > max`) both run
before any write; their `HTTPException(400, ...)` is caught by the handler's
`except Exception` and re-raised as status 500 with the message embedded.
On success the content is written to `uploads/<uuid>_<filename>` and the
reported `file_size` is `len(content)`. -/
def upload_audio (cfg : Config) (uuid : String) (file : Upload)
    (uploads : UploadDir) (elapsed : Nat) (s : Stats) :
    Outcome × UploadDir × Stats :=
  let ext := lowerStr (pathSuffix file.filename)
  if !(cfg.allowedAudioFormats.contains ext) then
    (.err 500 ("文件上传失败: 400: 不支持的文件格式。支持格式: " ++
        joinComma cfg.allowedAudioFormats),
     uploads, update_stats false elapsed s)
  else if (match file.size with
           | some n => decide (n ≠ 0) && decide (n > cfg.maxFileSize)
           | none => false) then
    (.err 500 ("文件上传失败: 400: 文件大小超过限制。最大大小: " ++
        toString (cfg.maxFileSize / (1024 * 1024)) ++ "MB"),
     uploads, update_stats false elapsed s)
  else
    let path := "uploads/" ++ uuid ++ "_" ++ file.filename
    (.ok (.upload path file.filename file.content.length),
     uploads ++ [(path, file.content)], update_stats true elapsed s)

/-- OS-level resolution of a relative path given as segments: `..` pops the
previous segment, `.` and empty segments are dropped. -/
def normalizeSegs (segs : List String) : List String :=
  segs.foldl
    (fun acc seg =>
      if seg = ".." then acc.dropLast
      else if seg = "." ∨ seg = "" then acc
      else acc ++ [seg])
    []

/-- The file actually accessed for route parameter `filename`: the OS
resolution of `Path("outputs") / filename`.  The `{filename:path}` route
converter lets `filename` contain slashes and `..` segments. -/
def resolveTarget (filename : String) : List String :=
  normalizeSegs ("outputs" :: splitSlash filename)

/-- Whether a resolved path still lies under the outputs directory. -/
def underOutputs : List String → Bool
  | "outputs" :: _ => true
  | _ => false

/-- Whether the route parameter contains a `..` path segment. -/
def hasDotDotSeg (filename : String) : Bool :=
  (splitSlash filename).contains ".."

/-- The filesystem seen by download/delete: files keyed by resolved path. -/
abbrev FileSys := List (List String × List Nat)

/-- `GET /download/{filename:path}` (`download_audio`): no `try` block here,
so the missing-file `HTTPException(404)` reaches the client unwrapped; an
existing file is served as a `FileResponse` whatever its resolved location. -/
def download_audio (fs : FileSys) (filename : String) : Outcome :=
  let target := resolveTarget filename
  match fs.find? (fun e => e.1 == target) with
  | none => .err 404 "文件不存在"
  | some e => .ok (.file target e.2)

/-- `DELETE /delete_audio/{filename:path}` (`delete_audio_file`): the
missing-file `HTTPException(404)` is raised inside `try` and re-raised by
`except Exception` as status 500; an existing file is unlinked, whatever its
resolved location. -/
def delete_audio_file (fs : FileSys) (filename : String) : Outcome × FileSys :=
  let target := resolveTarget filename
  if fs.any (fun e => e.1 == target) then
    (.ok (.deleted ("文件 " ++ filename ++ " 删除成功")),
     fs.filter (fun e => !(e.1 == target)))
  else
    (.err 500 "删除文件失败: 404: 文件不存在", fs)

/-- A file on disk as seen by the cleanup scan: which directory it is in,
its name, and its creation time. -/
structure FsFile where
  dir : String
  name : String
  ctime : Int
  deriving DecidableEq

/-- Display path of a scanned file. -/
def FsFile.path (f : FsFile) : String := f.dir ++ "/" ++ f.name

/-- Whether the outputs scan (`outputs.glob("*.wav")`) deletes `f` at
cutoff. -/
def cleanOutputsHit (cutoff : Int) (f : FsFile) : Bool :=
  f.dir = "outputs" && endsWithStr f.name ".wav" && f.ctime < cutoff

/-- Whether the uploads scan (`uploads.glob("*")`) deletes `f` at cutoff. -/
def cleanUploadsHit (cutoff : Int) (f : FsFile) : Bool :=
  f.dir = "uploads" && f.ctime < cutoff

/-- `DELETE /cleanup_old_files` (`cleanup_old_files`).  With auto-cleanup
disabled the `HTTPException(400, disabled)` is raised inside `try` and
re-raised as status 500 with the message embedded, and nothing is deleted.
With it enabled, the outputs scan removes `*.wav` files with
`ctime < now - max_file_age`, then the uploads scan removes any file with
`ctime < now - max_file_age`; removed paths are returned in scan order. -/
def cleanup_old_files (cfg : Config) (now : Int) (fs : List FsFile) :
    Outcome × List FsFile :=
  if cfg.autoCleanup = false then
    (.err 500 "清理旧文件失败: 400: 自动清理功能未启用", fs)
  else
    let cutoff := now - cfg.maxFileAge
    let cleanedOut := fs.filter (cleanOutputsHit cutoff)
    let cleanedUp := fs.filter (cleanUploadsHit cutoff)
    let remaining := fs.filter
        (fun f => !(cleanOutputsHit cutoff f || cleanUploadsHit cutoff f))
    (.ok (.cleaned ((cleanedOut ++ cleanedUp).map FsFile.path)), remaining)

/-! ### Helper lemmas -/

/-- The `lst[-1000:]` window: the last `k` elements of a list. -/
def lastWindow (k : Nat) (l : List Nat) : List Nat := l.drop (l.length - k)

theorem trim_eq_lastWindow (l : List Nat) :
    (if l.length > 1000 then l.drop (l.length - 1000) else l) = lastWindow 1000 l := by
  unfold lastWindow
  by_cases h : l.length > 1000
  · rw [if_pos h]
  · rw [if_neg h, Nat.sub_eq_zero_of_le (by omega), List.drop_zero]

theorem update_stats_response_times (b : Bool) (t : Nat) (s : Stats) :
    (update_stats b t s).response_times = lastWindow 1000 (s.response_times ++ [t]) := by
  cases b <;> · rw [← trim_eq_lastWindow]; rfl

theorem lastWindow_append_one (k : Nat) (p : List Nat) (t : Nat) :
    lastWindow k (lastWindow k p ++ [t]) = lastWindow k (p ++ [t]) := by
  unfold lastWindow
  have h1 : (p ++ [t]).drop (p.length - k) = p.drop (p.length - k) ++ [t] := by
    rw [List.drop_append_eq_append_drop,
      Nat.sub_eq_zero_of_le (Nat.sub_le _ _), List.drop_zero]
  rw [← h1, List.drop_drop]
  congr 1
  simp only [List.length_append, List.length_drop, List.length_cons, List.length_nil]
  omega

theorem recordAll_window (ops : List (Bool × Nat)) :
    ∀ (s : Stats) (p : List Nat), s.response_times = lastWindow 1000 p →
      (recordAll ops s).response_times = lastWindow 1000 (p ++ ops.map Prod.snd) := by
  induction ops with
  | nil => intro s p h; simpa [recordAll] using h
  | cons op rest ih =>
      intro s p h
      have step : (update_stats op.1 op.2 s).response_times
          = lastWindow 1000 (p ++ [op.2]) := by
        rw [update_stats_response_times, h, lastWindow_append_one]
      have hrec : recordAll (op :: rest) s = recordAll rest (update_stats op.1 op.2 s) := rfl
      rw [hrec, ih _ _ step, List.append_assoc]
      rfl

theorem recordAll_window_init (ops : List (Bool × Nat)) :
    (recordAll ops initStats).response_times = lastWindow 1000 (ops.map Prod.snd) := by
  simpa using recordAll_window ops initStats [] (by simp [initStats, lastWindow])

/-! ### Claim theorems -/

/-- C8: starting from the freshly initialised stats, the response-time window
holds at most 1000 samples after any sequence of recordings (hence at every
point, since every point is reached by some sequence); after recording the
1001 samples `0, 1, ..., 1000`, the window is exactly the 1000 most recent
samples `1, ..., 1000` in recording order, has length 1000, and the oldest
sample `0` is absent. -/
theorem stats_window_bound_c8 :
    (∀ ops : List (Bool × Nat),
        ((recordAll ops initStats).response_times).length ≤ 1000) ∧
    (recordAll ((List.range 1001).map (fun t => (true, t))) initStats).response_times
        = (List.range 1001).drop 1 ∧
    ((recordAll ((List.range 1001).map (fun t => (true, t))) initStats).response_times).length
        = 1000 ∧
    0 ∉ (recordAll ((List.range 1001).map (fun t => (true, t))) initStats).response_times := by
  have hwin : ∀ ops : List (Bool × Nat),
      (recordAll ops initStats).response_times = lastWindow 1000 (ops.map Prod.snd) :=
    recordAll_window_init
  have hconc : (recordAll ((List.range 1001).map (fun t => (true, t))) initStats).response_times
      = (List.range 1001).drop 1 := by
    rw [hwin]
    simp only [List.map_map, lastWindow]
    have : (List.range 1001).map (Prod.snd ∘ fun t => (true, t)) = List.range 1001 := by
      simp [Function.comp]
    rw [this, List.length_range]
  refine ⟨?_, hconc, ?_, ?_⟩
  · intro ops
    rw [hwin, lastWindow, List.length_drop]
    omega
  · rw [hconc, List.length_drop, List.length_range]
  · rw [hconc]
    intro hmem
    have := List.mem_of_mem_drop hmem
    have h0 : 0 < 1001 := by omega
    have : ∀ x ∈ (List.range 1001).drop 1, 1 ≤ x := by
      intro x hx
      have : (List.range 1001).drop 1 = List.range' 1 1000 := by
        have : List.range 1001 = List.range' 0 1001 := by
          rw [List.range_eq_range']
        rw [this]
        rfl
      rw [this] at hx
      exact (List.mem_range'_1.mp hx).1
    exact absurd (this 0 hmem) (by omega)

/-- C2 counterexample: a standard synthesis request issued while
`tts_instance` is `None` returns the 503 ServiceUnavailable outcome, but the
stats collector records nothing — `failed_requests` and `total_requests` both
stay at 0 instead of increasing by exactly 1 as the claim states, because the
`Depends(get_tts_instance)` rejection happens before the handler body that
calls `update_stats`. -/
theorem unready_synthesis_counterexample_c2 :
    (text_to_speech none { text := "hello" } [] "u" 1 initStats).1
        = .err 503 "TTS模型未初始化，请稍后重试" ∧
    ((text_to_speech none { text := "hello" } [] "u" 1 initStats).2).failed_requests = 0 ∧
    ((text_to_speech none { text := "hello" } [] "u" 1 initStats).2).total_requests = 0 ∧
    initStats.failed_requests = 0 ∧ initStats.total_requests = 0 := by
  decide

/-- C2 (amended): every synthesis request (standard, fast-path, or batch)
issued while the engine instance is not initialized returns the 503
ServiceUnavailable outcome, and the stats collector is left completely
untouched (no failure is recorded), because the dependency rejects the
request before the handler body runs. -/
theorem unready_synthesis_returns_503_c2 (request : TTSReq) (reqs : List TTSReq)
    (fs : List String) (uuid : String) (elapsed : Nat) (itemTime : Nat → Nat)
    (s : Stats) :
    text_to_speech none request fs uuid elapsed s
        = (.err 503 "TTS模型未初始化，请稍后重试", s) ∧
    text_to_speech_fast none request fs uuid elapsed s
        = (.err 503 "TTS模型未初始化，请稍后重试", s) ∧
    batch_text_to_speech none reqs fs uuid itemTime elapsed s
        = (.err 503 "TTS模型未初始化，请稍后重试", s) :=
  ⟨rfl, rfl, rfl⟩

/-- C5 counterexample: a batch request with one item, processed by a Ready
engine, bumps `total_requests` by exactly 1 — the item is not additionally
recorded in the stats collector, so the claimed per-item recording (which
would give 1 top-level + 1 item = 2) does not happen. -/
theorem stats_recording_counterexample_c5 :
    ((batch_text_to_speech (some (fun _ _ => .ok ())) [{ text := "hi" }] [] "u"
        (fun _ => 0) 2 initStats).2).total_requests = 1 ∧
    ¬ ((batch_text_to_speech (some (fun _ _ => .ok ())) [{ text := "hi" }] [] "u"
        (fun _ => 0) 2 initStats).2).total_requests = 1 + 1 := by
  decide

/-- C5 (amended): every top-level request that reaches a handler body hands
the elapsed time and its success flag to the stats collector exactly once
(the new stats state is exactly one `update_stats` application whose flag
matches the outcome); batch items are not recorded individually; requests
rejected by the engine-readiness dependency record nothing at all. -/
theorem stats_recording_once_c5 (tts : Engine) (bengine : Nat → Engine)
    (request : TTSReq) (reqs : List TTSReq) (fs : List String) (uuid : String)
    (elapsed : Nat) (itemTime : Nat → Nat) (s : Stats) (cfg : Config)
    (file : Upload) (uploads : UploadDir) :
    (text_to_speech (some tts) request fs uuid elapsed s).2
        = update_stats (text_to_speech (some tts) request fs uuid elapsed s).1.isOk
            elapsed s ∧
    (text_to_speech_fast (some tts) request fs uuid elapsed s).2
        = update_stats (text_to_speech_fast (some tts) request fs uuid elapsed s).1.isOk
            elapsed s ∧
    (batch_text_to_speech (some bengine) reqs fs uuid itemTime elapsed s).2
        = update_stats
            (batch_text_to_speech (some bengine) reqs fs uuid itemTime elapsed s).1.isOk
            elapsed s ∧
    (upload_audio cfg uuid file uploads elapsed s).2.2
        = update_stats (upload_audio cfg uuid file uploads elapsed s).1.isOk elapsed s ∧
    (text_to_speech none request fs uuid elapsed s).2 = s ∧
    (text_to_speech_fast none request fs uuid elapsed s).2 = s ∧
    (batch_text_to_speech none reqs fs uuid itemTime elapsed s).2 = s := by
  refine ⟨?_, ?_, rfl, ?_, rfl, rfl, rfl⟩
  · simp only [text_to_speech]
    split
    · rfl
    · split <;> rfl
  · simp only [text_to_speech_fast]
    split
    · rfl
    · split <;> rfl
  · simp only [upload_audio]
    split
    · rfl
    · split <;> rfl

/-- Placeholder entry used only for safe list indexing in statements. -/
def dummyEntry : BatchEntry := { index := 0, success := false }

/-- Placeholder request used only for safe list indexing in statements. -/
def dummyReq : TTSReq := { text := "" }

theorem batchItem_index (engine : Nat → Engine) (fs : List String) (uuid : String)
    (itemTime : Nat → Nat) (k : Nat) (r : TTSReq) :
    (batchItem engine fs uuid itemTime k r).index = k := by
  simp only [batchItem]
  split
  · rfl
  · split <;> rfl

theorem batchItem_shape (engine : Nat → Engine) (fs : List String) (uuid : String)
    (itemTime : Nat → Nat) (k : Nat) (r : TTSReq) :
    ((batchItem engine fs uuid itemTime k r).success = true →
        (batchItem engine fs uuid itemTime k r).output_path.isSome = true ∧
        (batchItem engine fs uuid itemTime k r).inference_time.isSome = true ∧
        (batchItem engine fs uuid itemTime k r).error = none) ∧
    ((batchItem engine fs uuid itemTime k r).success = false →
        (batchItem engine fs uuid itemTime k r).error.isSome = true ∧
        (batchItem engine fs uuid itemTime k r).output_path = none ∧
        (batchItem engine fs uuid itemTime k r).inference_time = none) := by
  simp only [batchItem]
  split
  · simp
  · split <;> simp

theorem batchLoop_length (engine : Nat → Engine) (fs : List String) (uuid : String)
    (itemTime : Nat → Nat) :
    ∀ (rs : List TTSReq) (k : Nat),
      (batchLoop engine fs uuid itemTime k rs).length = rs.length := by
  intro rs
  induction rs with
  | nil => intro k; rfl
  | cons r rest ih =>
      intro k
      simp only [batchLoop, List.length_cons, ih]

theorem batchLoop_map_index (engine : Nat → Engine) (fs : List String) (uuid : String)
    (itemTime : Nat → Nat) :
    ∀ (rs : List TTSReq) (k : Nat),
      (batchLoop engine fs uuid itemTime k rs).map BatchEntry.index
        = List.range' k rs.length := by
  intro rs
  induction rs with
  | nil => intro k; rfl
  | cons r rest ih =>
      intro k
      simp only [batchLoop, List.map_cons, List.length_cons, List.range'_succ, ih,
        batchItem_index]

theorem batchLoop_mem (engine : Nat → Engine) (fs : List String) (uuid : String)
    (itemTime : Nat → Nat) :
    ∀ (rs : List TTSReq) (k : Nat) (e : BatchEntry),
      e ∈ batchLoop engine fs uuid itemTime k rs →
        ∃ i r, e = batchItem engine fs uuid itemTime i r := by
  intro rs
  induction rs with
  | nil => intro k e h; cases h
  | cons r rest ih =>
      intro k e h
      rcases List.mem_cons.mp h with h | h
      · exact ⟨k, r, h⟩
      · exact ih (k + 1) e h

theorem batchLoop_getD (engine : Nat → Engine) (fs : List String) (uuid : String)
    (itemTime : Nat → Nat) :
    ∀ (rs : List TTSReq) (k i : Nat), i < rs.length →
      (batchLoop engine fs uuid itemTime k rs).getD i dummyEntry
        = batchItem engine fs uuid itemTime (k + i) (rs.getD i dummyReq) := by
  intro rs
  induction rs with
  | nil => intro k i h; cases h
  | cons r rest ih =>
      intro k i h
      cases i with
      | zero => rfl
      | succ j =>
          have hj : j < rest.length := by
            simpa [Nat.succ_lt_succ_iff] using h
          have := ih (k + 1) j hj
          simpa [batchLoop, List.getD, Nat.add_assoc, Nat.add_comm 1 j] using this

/-- C3 counterexample: a Ready-engine batch with one item whose reference
audio is missing returns one failure entry that carries no per-item elapsed
time (`inference_time` key absent), contradicting the claim that each entry
carries its per-item elapsed time. -/
theorem batch_entry_counterexample_c3 :
    (batch_text_to_speech (some (fun _ _ => .ok ())) [{ text := "hi" }] [] "u"
        (fun _ => 0) 2 initStats).1
      = .ok (.batch 1 [⟨0, false, none, none, none, some "参考音频文件不存在"⟩]) ∧
    ((batchLoop (fun _ _ => .ok ()) [] "u" (fun _ => 0) 0
        [{ text := "hi" }]).all (fun e => e.inference_time.isSome)) = false := by
  decide

/-- C3 (amended): for every batch of N requests (N ≤ 100), the results list
has exactly N entries whose `index` fields cover `0..N-1` in input order;
each successful entry carries an output path and a per-item elapsed time and
no error text, each failure entry carries error text but neither output path
nor elapsed time; an item whose reference audio is missing yields a failure
entry at its own position without removing, reordering, or aborting the
remaining entries; and the endpoint returns all entries with a single
top-level stats recording. -/
theorem batch_outcome_shape_c3 (engine : Nat → Engine) (fs : List String)
    (uuid : String) (itemTime : Nat → Nat) (elapsed : Nat) (s : Stats)
    (reqs : List TTSReq) (_hN : reqs.length ≤ 100) :
    (batchLoop engine fs uuid itemTime 0 reqs).length = reqs.length ∧
    (batchLoop engine fs uuid itemTime 0 reqs).map BatchEntry.index
        = List.range reqs.length ∧
    (∀ e ∈ batchLoop engine fs uuid itemTime 0 reqs,
        (e.success = true → e.output_path.isSome = true ∧
            e.inference_time.isSome = true ∧ e.error = none) ∧
        (e.success = false → e.error.isSome = true ∧
            e.output_path = none ∧ e.inference_time = none)) ∧
    (∀ i : Nat, i < reqs.length →
        blankPath (reqs.getD i dummyReq).audio_prompt_path = true →
          (batchLoop engine fs uuid itemTime 0 reqs).getD i dummyEntry
            = ⟨i, false, none, none, none, some "参考音频文件不存在"⟩) ∧
    batch_text_to_speech (some engine) reqs fs uuid itemTime elapsed s
        = (.ok (.batch reqs.length (batchLoop engine fs uuid itemTime 0 reqs)),
           update_stats true elapsed s) := by
  refine ⟨batchLoop_length engine fs uuid itemTime reqs 0, ?_, ?_, ?_, rfl⟩
  · rw [batchLoop_map_index engine fs uuid itemTime reqs 0, List.range_eq_range']
  · intro e he
    obtain ⟨i, r, rfl⟩ := batchLoop_mem engine fs uuid itemTime reqs 0 e he
    exact batchItem_shape engine fs uuid itemTime i r
  · intro i hi hblank
    rw [batchLoop_getD engine fs uuid itemTime reqs 0 i hi]
    simp only [batchItem, Nat.zero_add, hblank, Bool.true_or, if_pos]

/-- Witness for `batch_outcome_shape_c3` at a concrete two-item batch. -/
theorem batch_outcome_shape_witness_c3 :
    ([({ text := "a" } : TTSReq),
      { text := "b", audio_prompt_path := some "p" }].length ≤ 100) ∧
    (batchLoop (fun _ _ => .ok ()) ["p"] "u" (fun _ => 5) 0
        [{ text := "a" }, { text := "b", audio_prompt_path := some "p" }]).map
          BatchEntry.index = List.range 2 :=
  ⟨by decide,
    (batch_outcome_shape_c3 (fun _ _ => .ok ()) ["p"] "u" (fun _ => 5) 1 initStats
      [{ text := "a" }, { text := "b", audio_prompt_path := some "p" }]
      (by decide)).2.1⟩

/-- C9: the route parameter of download/delete may contain `..` segments, and
the target is the OS resolution of `outputs/<filename>` with no confinement
check: for `filename = "../secret.txt"` the resolved path `secret.txt` lies
outside the outputs directory, yet `download_audio` serves that file
(whatever its content) and `delete_audio_file` removes it. -/
theorem path_traversal_c9 :
    hasDotDotSeg "../secret.txt" = true ∧
    underOutputs (resolveTarget "../secret.txt") = false ∧
    resolveTarget "../secret.txt" = ["secret.txt"] ∧
    (∀ content : List Nat,
        download_audio [(["secret.txt"], content)] "../secret.txt"
          = .ok (.file ["secret.txt"] content)) ∧
    delete_audio_file [(["secret.txt"], [7])] "../secret.txt"
        = (.ok (.deleted "文件 ../secret.txt 删除成功"), []) := by
  refine ⟨by decide, by decide, by decide, ?_, by decide⟩
  intro content
  rfl

/-- An element of `l` survives `l.filter (fun y => !(p y))` exactly when
`p` rejects it. -/
theorem not_mem_filter_not {α : Type _} (p : α → Bool) (l : List α) (x : α)
    (hx : x ∈ l) :
    x ∉ l.filter (fun y => !(p y)) ↔ p x = true := by
  rw [List.mem_filter]
  constructor
  · intro h
    cases hpx : p x with
    | true => rfl
    | false => exact absurd ⟨hx, by rw [hpx]; rfl⟩ h
  · rintro hp ⟨_, hc⟩
    rw [hp] at hc
    simp at hc

/-- Translation between the scan predicates of the source and the
claim-style removal condition: a file is hit by one of the two scans exactly
when it is scan-eligible (a `*.wav` in outputs, or any file in uploads) and
its creation time lies strictly before the cutoff `now - maxFileAge`. -/
theorem cleanHit_iff (cfg : Config) (now : Int) (f : FsFile) :
    (cleanOutputsHit (now - cfg.maxFileAge) f
      || cleanUploadsHit (now - cfg.maxFileAge) f) = true
      ↔ (((f.dir = "outputs" ∧ endsWithStr f.name ".wav" = true) ∨ f.dir = "uploads")
          ∧ f.ctime < now - cfg.maxFileAge) := by
  simp only [cleanOutputsHit, cleanUploadsHit, Bool.or_eq_true, Bool.and_eq_true,
    decide_eq_true_eq]
  tauto

/-- C4 counterexample: with auto-cleanup enabled, `maxFileAge = 10` and
`now = 100`, an `outputs/a.mp3` of age 100 and an `outputs/b.wav` of age
exactly 10 both satisfy `age ≥ maxAge`, yet neither is removed (the outputs
scan only globs `*.wav`, and the age comparison is strict), refuting
`removed(f) ⇔ age(f) ≥ maxAge`. -/
theorem cleanup_counterexample_c4 :
    (cleanup_old_files { defaultConfig with autoCleanup := true, maxFileAge := 10 } 100
        [⟨"outputs", "a.mp3", 0⟩, ⟨"outputs", "b.wav", 90⟩]).2
      = [⟨"outputs", "a.mp3", 0⟩, ⟨"outputs", "b.wav", 90⟩] ∧
    (cleanup_old_files { defaultConfig with autoCleanup := true, maxFileAge := 10 } 100
        [⟨"outputs", "a.mp3", 0⟩, ⟨"outputs", "b.wav", 90⟩]).1
      = .ok (.cleaned []) ∧
    (100 : Int) - 0 ≥ 10 ∧ (100 : Int) - 90 ≥ 10 := by
  decide

/-- C4 (amended): with auto-cleanup disabled, `cleanup_old_files` deletes
nothing and reports (inside the 500-wrapped error) that the feature is
disabled; with it enabled, a file is removed iff it is scan-eligible (a
`*.wav` file in outputs, or any file in uploads) and `ctime < now - maxAge`
(i.e. its age strictly exceeds `maxAge`), and the returned list holds exactly
the paths of the removed files. -/
theorem cleanup_behavior_c4 (cfg : Config) (now : Int) (fs : List FsFile) :
    cleanup_old_files { cfg with autoCleanup := false } now fs
        = (.err 500 "清理旧文件失败: 400: 自动清理功能未启用", fs) ∧
    (∀ f ∈ fs,
        (f ∉ (cleanup_old_files { cfg with autoCleanup := true } now fs).2 ↔
          (((f.dir = "outputs" ∧ endsWithStr f.name ".wav" = true) ∨ f.dir = "uploads")
            ∧ f.ctime < now - cfg.maxFileAge))) ∧
    (cleanup_old_files { cfg with autoCleanup := true } now fs).1
        = .ok (.cleaned
            ((fs.filter (cleanOutputsHit (now - cfg.maxFileAge))
              ++ fs.filter (cleanUploadsHit (now - cfg.maxFileAge))).map FsFile.path)) ∧
    (∀ q : String,
        q ∈ (fs.filter (cleanOutputsHit (now - cfg.maxFileAge))
              ++ fs.filter (cleanUploadsHit (now - cfg.maxFileAge))).map FsFile.path ↔
        ∃ f ∈ fs, f.path = q ∧
          (((f.dir = "outputs" ∧ endsWithStr f.name ".wav" = true) ∨ f.dir = "uploads")
            ∧ f.ctime < now - cfg.maxFileAge)) := by
  refine ⟨rfl, ?_, rfl, ?_⟩
  · intro f hf
    rw [← cleanHit_iff cfg now f]
    exact not_mem_filter_not _ fs f hf
  · intro q
    simp only [List.mem_map, List.mem_append, List.mem_filter]
    constructor
    · rintro ⟨f, (⟨hf, hhit⟩ | ⟨hf, hhit⟩), rfl⟩
      · exact ⟨f, hf, rfl, (cleanHit_iff cfg now f).mp (by simp [hhit])⟩
      · exact ⟨f, hf, rfl, (cleanHit_iff cfg now f).mp (by simp [hhit])⟩
    · rintro ⟨f, hf, rfl, hcond⟩
      have := (cleanHit_iff cfg now f).mpr hcond
      rw [Bool.or_eq_true] at this
      rcases this with h | h
      · exact ⟨f, Or.inl ⟨hf, h⟩, rfl⟩
      · exact ⟨f, Or.inr ⟨hf, h⟩, rfl⟩

/-- Witness for `cleanup_behavior_c4` at a concrete state: an old wav in
outputs is reported removed, a fresh one is retained. -/
theorem cleanup_behavior_witness_c4 :
    (⟨"outputs", "old.wav", 0⟩ : FsFile) ∈
        [(⟨"outputs", "old.wav", 0⟩ : FsFile), ⟨"outputs", "new.wav", 95⟩] ∧
    ((⟨"outputs", "old.wav", 0⟩ : FsFile) ∉
        (cleanup_old_files { defaultConfig with autoCleanup := true, maxFileAge := 10 } 100
          [⟨"outputs", "old.wav", 0⟩, ⟨"outputs", "new.wav", 95⟩]).2 ↔
      ((("outputs" : String) = "outputs" ∧ endsWithStr "old.wav" ".wav" = true)
          ∨ ("outputs" : String) = "uploads") ∧ (0 : Int) < 100 - 10) :=
  ⟨by decide,
    (cleanup_behavior_c4 { defaultConfig with maxFileAge := 10 } 100
        [⟨"outputs", "old.wav", 0⟩, ⟨"outputs", "new.wav", 95⟩]).2.1
      ⟨"outputs", "old.wav", 0⟩ (by decide)⟩

/-- C6 counterexample: uploading `evil.txt` is rejected and the uploads
directory is unchanged, but the client-visible outcome is status 500 (the
`HTTPException(400)` is swallowed by the handler's `except Exception` and
re-raised as 500), not a 400 InvalidInput outcome. -/
theorem upload_format_counterexample_c6 :
    (upload_audio defaultConfig "u" { filename := "evil.txt" } [] 3 initStats).1
        = .err 500 "文件上传失败: 400: 不支持的文件格式。支持格式: .wav, .mp3, .flac, .m4a" ∧
    ((upload_audio defaultConfig "u" { filename := "evil.txt" } [] 3 initStats).1).statusOf
        = 500 ∧
    ((upload_audio defaultConfig "u" { filename := "evil.txt" } [] 3 initStats).1).statusOf
        ≠ 400 ∧
    (upload_audio defaultConfig "u" { filename := "evil.txt" } [] 3 initStats).2.1 = [] := by
  decide

/-- C6 (amended): every upload whose declared filename has an extension
outside the allow-list is rejected before anything is written — the uploads
directory is returned unchanged and one failure is recorded — but the
outcome is a 500 error wrapping the unsupported-format message rather than a
400 InvalidInput outcome. -/
theorem upload_format_reject_c6 (cfg : Config) (uuid : String) (file : Upload)
    (uploads : UploadDir) (elapsed : Nat) (s : Stats)
    (hext : cfg.allowedAudioFormats.contains (lowerStr (pathSuffix file.filename))
        = false) :
    upload_audio cfg uuid file uploads elapsed s
        = (.err 500 ("文件上传失败: 400: 不支持的文件格式。支持格式: "
              ++ joinComma cfg.allowedAudioFormats),
           uploads, update_stats false elapsed s) := by
  have hmem : lowerStr (pathSuffix file.filename) ∉ cfg.allowedAudioFormats := by
    simpa using hext
  simp [upload_audio, hmem]

/-- Witness for `upload_format_reject_c6` at the concrete upload
`evil.txt`. -/
theorem upload_format_reject_witness_c6 :
    (defaultConfig.allowedAudioFormats.contains (lowerStr (pathSuffix "evil.txt"))
        = false) ∧
    (upload_audio defaultConfig "u" { filename := "evil.txt" } [] 3 initStats).2.1
        = [] := by
  refine ⟨by decide, ?_⟩
  rw [upload_format_reject_c6 defaultConfig "u" { filename := "evil.txt" } [] 3 initStats
    (by decide)]

/-- C7 counterexample: deleting an absent file reports status 500 (the
`HTTPException(404)` is swallowed by `except Exception` and re-raised as
500 wrapping the not-found message), not a 404 NotFound outcome. -/
theorem delete_missing_counterexample_c7 :
    (delete_audio_file [] "ghost.wav").1 = .err 500 "删除文件失败: 404: 文件不存在" ∧
    ((delete_audio_file [] "ghost.wav").1).statusOf = 500 ∧
    ((delete_audio_file [] "ghost.wav").1).statusOf ≠ 404 := by
  decide

/-- C7 (amended): deleting a filename whose target is absent fails with a
500 error wrapping the not-found message (and leaves the filesystem
unchanged); deleting an existing target removes it and reports success, and
a second delete of the now-removed file again yields the same wrapped
not-found error. -/
theorem delete_audio_behavior_c7 (fs : FileSys) (filename : String) :
    ((fs.any (fun e => e.1 == resolveTarget filename)) = false →
        delete_audio_file fs filename
          = (.err 500 "删除文件失败: 404: 文件不存在", fs)) ∧
    ((fs.any (fun e => e.1 == resolveTarget filename)) = true →
        (delete_audio_file fs filename).1
            = .ok (.deleted ("文件 " ++ filename ++ " 删除成功")) ∧
        ((delete_audio_file fs filename).2.any
            (fun e => e.1 == resolveTarget filename)) = false ∧
        (delete_audio_file (delete_audio_file fs filename).2 filename).1
            = .err 500 "删除文件失败: 404: 文件不存在") := by
  constructor
  · intro h
    simp [delete_audio_file, h]
  · intro h
    have h2 : ((fs.filter (fun e => !(e.1 == resolveTarget filename))).any
        (fun e => e.1 == resolveTarget filename)) = false := by
      rw [Bool.eq_false_iff]
      intro hc
      rw [List.any_eq_true] at hc
      obtain ⟨x, hx, hpx⟩ := hc
      rw [List.mem_filter] at hx
      rw [hpx] at hx
      cases hx.2
    have hsnd : (delete_audio_file fs filename).2
        = fs.filter (fun e => !(e.1 == resolveTarget filename)) := by
      simp [delete_audio_file, h]
    refine ⟨by simp [delete_audio_file, h], ?_, ?_⟩
    · rw [hsnd]; exact h2
    · rw [hsnd]
      simp [delete_audio_file, h2]

/-- Witness for `delete_audio_behavior_c7`: absent file on an empty outputs
directory, then an existing file. -/
theorem delete_audio_behavior_witness_c7 :
    (([] : FileSys).any (fun e => e.1 == resolveTarget "ghost.wav") = false) ∧
    (([(["outputs", "a.wav"], [1])] : FileSys).any
        (fun e => e.1 == resolveTarget "a.wav") = true) ∧
    delete_audio_file [] "ghost.wav" = (.err 500 "删除文件失败: 404: 文件不存在", []) ∧
    (delete_audio_file [(["outputs", "a.wav"], [1])] "a.wav").1
        = .ok (.deleted "文件 a.wav 删除成功") :=
  ⟨by decide, by decide,
    (delete_audio_behavior_c7 [] "ghost.wav").1 (by decide),
    ((delete_audio_behavior_c7 [(["outputs", "a.wav"], [1])] "a.wav").2 (by decide)).1⟩

/-- C10: the size ceiling is enforced only when the declared `file.size` is
present and non-zero; with a declared size of `None` or `0` the full content
is written whatever its actual length; the check compares the declared size
(never `len(content)`), and the reported `file_size` is the length of the
written content. -/
theorem upload_size_gate_c10 (cfg : Config) (uuid : String) (name : String)
    (content : List Nat) (uploads : UploadDir) (elapsed : Nat) (s : Stats)
    (hext : cfg.allowedAudioFormats.contains (lowerStr (pathSuffix name)) = true) :
    (∀ declared : Option Nat, (declared = none ∨ declared = some 0) →
        upload_audio cfg uuid ⟨name, declared, content⟩ uploads elapsed s
          = (.ok (.upload ("uploads/" ++ uuid ++ "_" ++ name) name content.length),
             uploads ++ [("uploads/" ++ uuid ++ "_" ++ name, content)],
             update_stats true elapsed s)) ∧
    (∀ n : Nat, n ≤ cfg.maxFileSize →
        upload_audio cfg uuid ⟨name, some n, content⟩ uploads elapsed s
          = (.ok (.upload ("uploads/" ++ uuid ++ "_" ++ name) name content.length),
             uploads ++ [("uploads/" ++ uuid ++ "_" ++ name, content)],
             update_stats true elapsed s)) ∧
    (∀ n : Nat, n > cfg.maxFileSize →
        upload_audio cfg uuid ⟨name, some n, content⟩ uploads elapsed s
          = (.err 500 ("文件上传失败: 400: 文件大小超过限制。最大大小: "
                ++ toString (cfg.maxFileSize / (1024 * 1024)) ++ "MB"),
             uploads, update_stats false elapsed s)) := by
  have hmem : lowerStr (pathSuffix name) ∈ cfg.allowedAudioFormats := by
    simpa using hext
  refine ⟨?_, ?_, ?_⟩
  · rintro declared (rfl | rfl) <;> simp [upload_audio, hmem]
  · intro n hn
    have hgt : ¬ (cfg.maxFileSize < n) := by omega
    simp [upload_audio, hmem, hgt]
  · intro n hn
    have hne : n ≠ 0 := by omega
    simp [upload_audio, hmem, hn, hne]

/-- Witness for `upload_size_gate_c10`: a `.wav` upload with declared size 0
and three bytes of content succeeds and reports size 3. -/
theorem upload_size_gate_witness_c10 :
    (defaultConfig.allowedAudioFormats.contains (lowerStr (pathSuffix "a.wav")) = true) ∧
    ((some 0 : Option Nat) = none ∨ (some 0 : Option Nat) = some 0) ∧
    (upload_audio defaultConfig "u" ⟨"a.wav", some 0, [1, 2, 3]⟩ [] 4 initStats).1
        = .ok (.upload "uploads/u_a.wav" "a.wav" 3) := by
  refine ⟨by decide, by decide, ?_⟩
  rw [(upload_size_gate_c10 defaultConfig "u" "a.wav" [1, 2, 3] [] 4 initStats
      (by decide)).1 (some 0) (Or.inr rfl)]
  rfl

end IndexTTSApi
